import Mathlib

/-!
Verification development for the OneTime_Password tray application
(source files `app.py` and `app_V2.py`).

The embedding models the security-relevant core of both program variants:

* the DPAPI helper layer of `app_V2.py` (`dpapi_encrypt` / `dpapi_decrypt`,
  Windows and non-Windows fallback variants), parameterised over models of
  the external platform primitives (`CryptProtectData` / `CryptUnprotectData`)
  and the external text codecs (UTF-8 and base64 from the Python standard
  library);
* the credential stores: `PasswordStore` of `app_V2.py` (DPAPI-file backed)
  and `PasswordStore` of `app.py` (keyring-vault backed);
* the clipboard lifecycle logic of `MainWindow`: `copy_password`
  (clipboard section, lines 423-431 of `app_V2.py`) and
  `_maybe_clear_clipboard` (lines 433-448), together with the single
  single-shot `QTimer` the window owns;
* the `change_password` UI flows of both variants.

Python exceptions are modelled with `Option` results and explicit
success/failure oracles for external I/O (file writes, vault calls,
clipboard reads); Python truthiness of optional strings is modelled by
`truthy`.
-/

namespace OneTimePw

/-- Model of the external text codecs used by the Python code:
`str.encode("utf-8")` / `bytes.decode("utf-8")` and
`base64.b64encode` / `base64.b64decode`.  Bytes are lists of `Nat`.
Decoding can fail (raise), hence `Option`. -/
structure TextCodec where
  utf8_encode : String → List Nat
  utf8_decode : List Nat → Option String
  b64encode : List Nat → String
  b64decode : String → Option (List Nat)

/-- Model of the Windows DPAPI primitives `CryptProtectData` and
`CryptUnprotectData` (external OS calls).  The first argument is the
`dwFlags` value passed by the caller; `none` models a failed call
(`ok` false, i.e. an `OSError` on encrypt, `None` on decrypt). -/
structure OsCrypto where
  protect : Nat → List Nat → Option (List Nat)
  unprotect : Nat → List Nat → Option (List Nat)

/-- Flag constant from `app_V2.py` line 47. -/
def CRYPTPROTECT_UI_FORBIDDEN : Nat := 0x01

/-- The `dwFlags` value `dpapi_encrypt` passes to `CryptProtectData`
(`app_V2.py` line 67): the UI-forbidden flag. -/
def dpapiEncryptFlags : Nat := CRYPTPROTECT_UI_FORBIDDEN

/-- The `dwFlags` value `dpapi_decrypt` passes to `CryptUnprotectData`
(`app_V2.py` line 87): the literal `0`. -/
def dpapiDecryptFlags : Nat := 0

/-- Windows variant of `dpapi_encrypt` (`app_V2.py` lines 60-76):
UTF-8 encode, call `CryptProtectData` with `dpapiEncryptFlags`, base64
encode the resulting blob.  `none` models the raised `OSError` when the
OS call fails. -/
def dpapi_encrypt_win (os : OsCrypto) (c : TextCodec) (plaintext : String) : Option String :=
  (os.protect dpapiEncryptFlags (c.utf8_encode plaintext)).map c.b64encode

/-- Windows variant of `dpapi_decrypt` (`app_V2.py` lines 78-99):
base64 decode (failure caught, returns `None`), call `CryptUnprotectData`
with `dpapiDecryptFlags` (failure returns `None`), UTF-8 decode
(failure caught, returns `None`). -/
def dpapi_decrypt_win (os : OsCrypto) (c : TextCodec) (b64 : String) : Option String :=
  match c.b64decode b64 with
  | none => none
  | some enc =>
    match os.unprotect dpapiDecryptFlags enc with
    | none => none
    | some dec => c.utf8_decode dec

/-- Non-Windows fallback `dpapi_encrypt` (`app_V2.py` lines 102-103):
plain base64 of the UTF-8 bytes; never fails. -/
def dpapi_encrypt_fallback (c : TextCodec) (plaintext : String) : String :=
  c.b64encode (c.utf8_encode plaintext)

/-- Non-Windows fallback `dpapi_decrypt` (`app_V2.py` lines 104-108):
base64 decode then UTF-8 decode, any exception caught and folded to `None`. -/
def dpapi_decrypt_fallback (c : TextCodec) (b64 : String) : Option String :=
  (c.b64decode b64).bind c.utf8_decode

/-- The encrypt/decrypt pair the `app_V2.py` module binds at import time
(Windows DPAPI or the fallback), as consumed by `PasswordStore`. -/
structure Dpapi where
  encrypt : String → Option String
  decrypt : String → Option String

/-- The pair bound on Windows. -/
def dpapiWindows (os : OsCrypto) (c : TextCodec) : Dpapi :=
  ⟨dpapi_encrypt_win os c, dpapi_decrypt_win os c⟩

/-- The pair bound on non-Windows hosts (passthrough encoding). -/
def dpapiPassthrough (c : TextCodec) : Dpapi :=
  ⟨fun s => some (dpapi_encrypt_fallback c s), dpapi_decrypt_fallback c⟩

/-- Python truthiness of an optional string (`if self._in_memory:` and
`if pw:`): `none` and `some ""` are falsy. -/
def truthy : Option String → Bool
  | none => false
  | some s => !s.isEmpty

/-- Helper: a non-empty string is not `isEmpty`. -/
theorem isEmpty_eq_false_of_ne (s : String) (h : s ≠ "") : s.isEmpty = false := by
  cases he : s.isEmpty
  · rfl
  · exact absurd ((String.isEmpty_iff s).mp he) h

/-- State of the credential file `cred.json` of `app_V2.py`: absent
(open raises `FileNotFoundError`), unparsable/ill-typed (`json.load` or
field access raises), or a parsed record with its `label` and `dpapi`
fields. -/
inductive CredRecord where
  | absent : CredRecord
  | corrupt : CredRecord
  | record : String → String → CredRecord
deriving DecidableEq, Repr

/-- Constants from `app_V2.py` / `app.py`. -/
def SERVICE_NAME : String := "NESearchTool_PasswordOnly"

/-- Logical credential label shared by both variants. -/
def USERNAME_LABEL : String := "default"

namespace V2

/-- In-memory state of `PasswordStore` (`app_V2.py` lines 151-154). -/
structure PasswordStore where
  label : String
  in_memory : Option String
deriving DecidableEq, Repr

/-- Model of `PasswordStore.get` (`app_V2.py` lines 156-172).  Returns
the result together with the updated store.  All exception paths of the
source (`open`, `json.load`, field access) are caught by the
`try/except` and modelled by the `absent`/`corrupt` branches; the
function is total, so `get` never raises. -/
def PasswordStore.get (d : Dpapi) (st : PasswordStore) (cred : CredRecord) :
    Option String × PasswordStore :=
  if truthy st.in_memory then (st.in_memory, st)
  else
    match cred with
    | .absent => (none, st)
    | .corrupt => (none, st)
    | .record _ enc =>
      if enc = "" then (none, st)
      else
        match d.decrypt enc with
        | none => (none, st)
        | some pw => if pw = "" then (none, st) else (some pw, ⟨st.label, some pw⟩)

/-- Model of `PasswordStore.set` (`app_V2.py` lines 174-184).  The
in-memory cache is replaced first; when `remember` is set the record is
encrypted and written, and an encrypt failure (raised `OSError`) or a
write failure (`writeOk = false`, e.g. `ensure_dir`/`open` raising) is
swallowed, leaving the disk unchanged. -/
def PasswordStore.set (d : Dpapi) (st : PasswordStore) (cred : CredRecord)
    (password : String) (remember : Bool) (writeOk : Bool) :
    PasswordStore × CredRecord :=
  let st' : PasswordStore := ⟨st.label, some password⟩
  if remember then
    match d.encrypt password with
    | none => (st', cred)
    | some enc => if writeOk then (st', .record st.label enc) else (st', cred)
  else (st', cred)

/-- Model of `PasswordStore.clear_device_store` (`app_V2.py` lines
186-191): removes the file when present; an `os.remove` failure
(`removeOk = false`) is swallowed and leaves the record. -/
def PasswordStore.clear_device_store (cred : CredRecord) (removeOk : Bool) : CredRecord :=
  if removeOk then .absent else cred

/-- Model of `PasswordStore.clear_memory` (`app_V2.py` lines 193-194). -/
def PasswordStore.clear_memory (st : PasswordStore) : PasswordStore :=
  ⟨st.label, none⟩

end V2

namespace V1

/-- In-memory state of `PasswordStore` (`app.py` lines 95-99). -/
structure PasswordStore where
  service : String
  account : String
  in_memory : Option String
deriving DecidableEq, Repr

/-- Model of `PasswordStore.get` (`app.py` lines 100-111).
`keyringPresent` models whether the optional `keyring` import succeeded;
`vaultRead` is what `keyring.get_password` returned for this
service/account (`none` covers both an absent entry and a raised,
caught, exception). -/
def PasswordStore.get (keyringPresent : Bool) (vaultRead : Option String)
    (st : PasswordStore) : Option String × PasswordStore :=
  if truthy st.in_memory then (st.in_memory, st)
  else if keyringPresent then
    match vaultRead with
    | none => (none, st)
    | some pw =>
      if pw = "" then (none, st)
      else (some pw, ⟨st.service, st.account, some pw⟩)
  else (none, st)

/-- Model of `PasswordStore.set` (`app.py` lines 112-119).  The vault is
the keyring entry for this service/account; a raised, caught,
`keyring.set_password` failure is `setOk = false` and leaves the vault
unchanged. -/
def PasswordStore.set (keyringPresent : Bool) (st : PasswordStore)
    (vault : Option String) (password : String) (remember : Bool) (setOk : Bool) :
    PasswordStore × Option String :=
  let st' : PasswordStore := ⟨st.service, st.account, some password⟩
  if remember && keyringPresent then
    (st', if setOk then some password else vault)
  else (st', vault)

/-- Model of `PasswordStore.clear_device_store` (`app.py` lines 120-125):
`keyring.delete_password` with any exception caught
(`deleteOk = false` leaves the vault unchanged). -/
def PasswordStore.clear_device_store (keyringPresent : Bool)
    (vault : Option String) (deleteOk : Bool) : Option String :=
  if keyringPresent && deleteOk then none else vault

end V1

/-- Outcome surfaced synchronously by the `change_password` dialog flow:
the dialog was cancelled, the empty-password warning was shown
(`"Password cannot be empty."`), or the secret was stored and the
`"Saved"` notification shown. -/
inductive CPOutcome where
  | cancelled : CPOutcome
  | rejectedEmpty : CPOutcome
  | saved : CPOutcome
deriving DecidableEq, Repr

namespace V2

/-- Model of `MainWindow.change_password` (`app_V2.py` lines 385-398).
`dlg` is the dialog result: `none` when rejected/cancelled, otherwise
the entered password and the remember checkbox.  On non-Windows hosts a
remember request is downgraded to `false` (lines 392-395). -/
def change_password (isWindows : Bool) (dlg : Option (String × Bool)) (d : Dpapi)
    (st : PasswordStore) (cred : CredRecord) (writeOk : Bool) :
    CPOutcome × PasswordStore × CredRecord :=
  match dlg with
  | none => (.cancelled, st, cred)
  | some (pw, remember) =>
    if pw = "" then (.rejectedEmpty, st, cred)
    else
      let rem2 := if isWindows then remember else false
      let r := PasswordStore.set d st cred pw rem2 writeOk
      (.saved, r.1, r.2)

end V2

namespace V1

/-- Model of `MainWindow.change_password` (`app.py` lines 304-315).
When the entered password is non-empty, `remember` is off and keyring is
available, `clear_device_store` runs before `set`. -/
def change_password (keyringPresent : Bool) (dlg : Option (String × Bool))
    (st : PasswordStore) (vault : Option String) (deleteOk setOk : Bool) :
    CPOutcome × PasswordStore × Option String :=
  match dlg with
  | none => (.cancelled, st, vault)
  | some (pw, remember) =>
    if pw = "" then (.rejectedEmpty, st, vault)
    else
      let vault1 :=
        if !remember && keyringPresent then
          PasswordStore.clear_device_store keyringPresent vault deleteOk
        else vault
      let r := PasswordStore.set keyringPresent st vault1 pw remember setOk
      (.saved, r.1, r.2)

end V1

/-- One clipboard side effect issued during `_maybe_clear_clipboard`:
`QClipboard.clear()`, `QClipboard.setText(s)`, or the best-effort
`win_clear_clipboard()` buffer flush. -/
inductive ClipAction where
  | clear : ClipAction
  | setText : String → ClipAction
  | forceClear : ClipAction
deriving DecidableEq, Repr

/-- State of `MainWindow`'s clipboard lifecycle: the system clipboard
content, the `_last_copied_value` snapshot and the single single-shot
`_clear_timer` (`none` when not armed, `some ms` when armed for `ms`
milliseconds).  There is exactly one timer slot because the window owns
exactly one `QTimer` (`app_V2.py` lines 271-274). -/
structure MgrState where
  clipboard : String
  last_copied : Option String
  timer : Option Nat
deriving DecidableEq, Repr

/-- Number of live auto-clear timers in a state (0 or 1 by
construction: the window owns a single `QTimer`). -/
def timerCount (st : MgrState) : Nat :=
  if st.timer.isSome then 1 else 0

/-- A fire event is only possible while the single-shot timer is armed. -/
def canFire (st : MgrState) : Bool :=
  st.timer.isSome

namespace V2

/-- Model of the clipboard section of `MainWindow.copy_password`
(`app_V2.py` lines 423-431), entered once a non-empty secret `pw` is in
hand: write `pw` to the system clipboard, record the
`_last_copied_value` snapshot (unconditionally, line 425), and when the
live `chk_auto` checkbox is checked, restart the single-shot timer for
`max 1 spin_secs * 1000` milliseconds (lines 429-431).  `autoClear` and
`ttlSecs` are the checkbox/spinbox values read at call time. -/
def copy_password (st : MgrState) (pw : String) (autoClear : Bool) (ttlSecs : Nat) :
    MgrState :=
  let st1 : MgrState := ⟨pw, some pw, st.timer⟩
  if autoClear then ⟨st1.clipboard, st1.last_copied, some (max 1 ttlSecs * 1000)⟩
  else st1

/-- Result of one `_maybe_clear_clipboard` run: the clipboard calls
issued, whether the `"Clipboard cleared"` notification was emitted, and
the resulting clipboard content. -/
structure FireResult where
  actions : List ClipAction
  cleared : Bool
  newClipboard : String
deriving DecidableEq, Repr

/-- Model of `MainWindow._maybe_clear_clipboard` (`app_V2.py` lines
433-448).  `snapshot` is `_last_copied_value`, `clip` the current
clipboard content, `readOk` whether the clipboard access succeeded
(`false` models a raised, caught, exception), and `forceOk` the ignored
boolean result of the best-effort `win_clear_clipboard()` flush.  When
the clipboard still equals the snapshot the layered clear runs
(`clear`, `setText ""`, `clear`, forced flush) and the signal is
emitted; otherwise the clipboard is left untouched. -/
def maybe_clear_clipboard (snapshot : Option String) (clip : String)
    (readOk : Bool) (forceOk : Bool) : FireResult :=
  match snapshot with
  | none => ⟨[], false, clip⟩
  | some v =>
    if readOk then
      if clip = v then ⟨[.clear, .setText "", .clear, .forceClear], true, ""⟩
      else ⟨[], false, clip⟩
    else ⟨[], false, clip⟩

/-- One firing of the armed single-shot `_clear_timer`: the timer
expires (single-shot, so it is consumed), `_maybe_clear_clipboard` runs,
and the `finally` block resets `_last_copied_value` to `None` on every
path. -/
def fireTimer (st : MgrState) (readOk : Bool) (forceOk : Bool) :
    MgrState × FireResult :=
  let r := maybe_clear_clipboard st.last_copied st.clipboard readOk forceOk
  (⟨r.newClipboard, none, none⟩, r)

end V2

/-- The three supported encryption backend variants named by the spec:
the OS credential vault (`keyring`, `app.py`), the user-scoped OS
encryption (DPAPI, Windows branch of `app_V2.py`), and the passthrough
encoding (non-Windows branch of `app_V2.py`). -/
inductive BackendVariant where
  | vault : BackendVariant
  | userScoped : BackendVariant
  | passthrough : BackendVariant
deriving DecidableEq, Repr

/-- Round-trip experiment of spec section 8: `set(s, remember=true)` on
a fresh store, then `get()` on a second fresh store instance (empty
cache) against the persisted state the first call produced, under each
backend variant.  All external calls succeed (same encryption
context). -/
def roundtrip (v : BackendVariant) (os : OsCrypto) (c : TextCodec) (s : String) :
    Option String :=
  match v with
  | .vault =>
    let st0 : V1.PasswordStore := ⟨SERVICE_NAME, USERNAME_LABEL, none⟩
    let r := V1.PasswordStore.set true st0 none s true true
    (V1.PasswordStore.get true r.2 ⟨SERVICE_NAME, USERNAME_LABEL, none⟩).1
  | .userScoped =>
    let d := dpapiWindows os c
    let r := V2.PasswordStore.set d ⟨USERNAME_LABEL, none⟩ .absent s true true
    (V2.PasswordStore.get d ⟨USERNAME_LABEL, none⟩ r.2).1
  | .passthrough =>
    let d := dpapiPassthrough c
    let r := V2.PasswordStore.set d ⟨USERNAME_LABEL, none⟩ .absent s true true
    (V2.PasswordStore.get d ⟨USERNAME_LABEL, none⟩ r.2).1

/-- Concrete codec model used to evaluate the development on concrete
inputs: bytes are the code points of the characters. -/
def codec0 : TextCodec where
  utf8_encode := fun s => s.data.map Char.toNat
  utf8_decode := fun l => some (String.mk (l.map Char.ofNat))
  b64encode := fun l => String.mk (l.map Char.ofNat)
  b64decode := fun s => some (s.data.map Char.toNat)

/-- Concrete OS-crypto model whose protect/unprotect are identities and
always succeed, regardless of flags. -/
def os0 : OsCrypto where
  protect := fun _ l => some l
  unprotect := fun _ l => some l

/-- Concrete OS-crypto model of a host that would block on an
interactive prompt: a call succeeds only when the caller passed the
UI-forbidden flag bit; a call without it hangs on a prompt, modelled as
failure. -/
def osStrict : OsCrypto where
  protect := fun f l => if f % 2 = 1 then some l else none
  unprotect := fun f l => if f % 2 = 1 then some l else none

/-- Concrete backend pair whose encrypt always fails (models a denied
`CryptProtectData` call). -/
def dpapiFailing : Dpapi where
  encrypt := fun _ => none
  decrypt := fun _ => none

/-- C1: when the armed auto-clear timer fires with snapshot value `v`,
a clipboard equal to `v` receives the layered clear (clear, write empty,
clear, best-effort forced flush) and the cleared signal is emitted,
while a differing clipboard receives no write or clear at all and keeps
its content; the result never depends on whether the forced flush
succeeded. -/
theorem autoclear_respects_snapshot (v clip : String) (forceOk : Bool) :
    (clip = v →
      V2.maybe_clear_clipboard (some v) clip true forceOk =
        ⟨[.clear, .setText "", .clear, .forceClear], true, ""⟩)
    ∧ (clip ≠ v →
      V2.maybe_clear_clipboard (some v) clip true forceOk = ⟨[], false, clip⟩)
    ∧ V2.maybe_clear_clipboard (some v) clip true true =
        V2.maybe_clear_clipboard (some v) clip true false := by
  refine ⟨fun h => ?_, fun h => ?_, rfl⟩ <;>
    simp [V2.maybe_clear_clipboard, h]

/-- Witness for `autoclear_respects_snapshot` at concrete inputs. -/
theorem autoclear_respects_snapshot_witness :
    V2.maybe_clear_clipboard (some "p4ss") "p4ss" true true =
      ⟨[.clear, .setText "", .clear, .forceClear], true, ""⟩
    ∧ V2.maybe_clear_clipboard (some "p4ss") "other" true true = ⟨[], false, "other"⟩ :=
  ⟨(autoclear_respects_snapshot "p4ss" "p4ss" true).1 rfl,
   (autoclear_respects_snapshot "p4ss" "other" true).2.1 (by decide)⟩

/-- C5: re-arming supersedes.  Copying `a` with TTL `ta` and then `b`
with TTL `tb` before the first timer fires leaves exactly the state of
the second copy (single timer restarted for `tb`, snapshot `b`); at most
one timer is live; any later firing can emit the cleared signal only for
clipboard content `b`, and content differing from `b` (in particular
`a`) is never cleared. -/
theorem rearm_supersedes (st : MgrState) (a b : String) (ta tb : Nat) :
    V2.copy_password (V2.copy_password st a true ta) b true tb =
      ⟨b, some b, some (max 1 tb * 1000)⟩
    ∧ timerCount ⟨b, some b, some (max 1 tb * 1000)⟩ ≤ 1
    ∧ (∀ cur readOk forceOk,
        ((V2.fireTimer ⟨cur, some b, some (max 1 tb * 1000)⟩ readOk forceOk).2.cleared = true
          ↔ readOk = true ∧ cur = b))
    ∧ (∀ cur readOk forceOk, cur ≠ b →
        (V2.fireTimer ⟨cur, some b, some (max 1 tb * 1000)⟩ readOk forceOk).1.clipboard = cur) := by
  refine ⟨by simp [V2.copy_password], by simp [timerCount],
    fun cur readOk forceOk => ?_, fun cur readOk forceOk hc => ?_⟩
  · cases readOk <;> by_cases hc : cur = b <;>
      simp [V2.fireTimer, V2.maybe_clear_clipboard, hc]
  · cases readOk <;> simp [V2.fireTimer, V2.maybe_clear_clipboard, hc]

/-- Witness for `rearm_supersedes` at the inputs named by the claim. -/
theorem rearm_supersedes_witness :
    V2.copy_password (V2.copy_password ⟨"", none, none⟩ "A" true 10) "B" true 1 =
      ⟨"B", some "B", some (max 1 1 * 1000)⟩
    ∧ (V2.fireTimer ⟨"A", some "B", some (max 1 1 * 1000)⟩ true true).1.clipboard = "A" :=
  ⟨(rearm_supersedes ⟨"", none, none⟩ "A" "B" 10 1).1,
   (rearm_supersedes ⟨"", none, none⟩ "A" "B" 10 1).2.2.2 "A" true true (by decide)⟩

/-- C6 counterexample: `copy_password` with the auto-clear checkbox off
still records the `_last_copied_value` snapshot (`app_V2.py` line 425
runs unconditionally), contradicting the claim that the snapshot is
recorded only when auto-clear is enabled. -/
theorem copy_records_snapshot_without_autoclear :
    (V2.copy_password ⟨"", none, none⟩ "s3cret" false 5).last_copied ≠ none := by
  decide

/-- C6 amended: every copy writes the secret to the clipboard and
records the snapshot unconditionally; only the single-shot timer
(re)start is conditional on the live auto-clear checkbox, using the
live spinbox TTL; with auto-clear off any previously armed timer is
left as it was. -/
theorem copy_clipboard_snapshot_timer (st : MgrState) (pw : String)
    (autoClear : Bool) (ttl : Nat) :
    (V2.copy_password st pw autoClear ttl).clipboard = pw
    ∧ (V2.copy_password st pw autoClear ttl).last_copied = some pw
    ∧ (V2.copy_password st pw autoClear ttl).timer =
        (if autoClear then some (max 1 ttl * 1000) else st.timer) := by
  cases autoClear <;> simp [V2.copy_password]

/-- C7: after any firing of the auto-clear timer — clipboard matched,
clipboard differed, or the clipboard access failed — the snapshot is
reset to `None`, the single-shot timer is disarmed, and no further fire
is possible without a new copy. -/
theorem fired_snapshot_always_reset (st : MgrState) (readOk forceOk : Bool) :
    (V2.fireTimer st readOk forceOk).1.last_copied = none
    ∧ (V2.fireTimer st readOk forceOk).1.timer = none
    ∧ canFire (V2.fireTimer st readOk forceOk).1 = false :=
  ⟨rfl, rfl, rfl⟩

/-- C9: the `change_password` flow surfaces the empty-secret rejection
and nothing else synchronously: the warning outcome occurs exactly when
the dialog was accepted with an empty password, the store and record are
untouched in that case, and any accepted non-empty password yields the
`saved` outcome regardless of backend or write failures. -/
theorem empty_secret_only_sync_failure (isWin : Bool) (dlg : Option (String × Bool))
    (d : Dpapi) (st : V2.PasswordStore) (cred : CredRecord) (writeOk : Bool) :
    ((V2.change_password isWin dlg d st cred writeOk).1 = .rejectedEmpty
      ↔ ∃ rem, dlg = some ("", rem))
    ∧ (∀ rem, dlg = some ("", rem) →
        V2.change_password isWin dlg d st cred writeOk = (.rejectedEmpty, st, cred))
    ∧ (∀ pw rem, dlg = some (pw, rem) → pw ≠ "" →
        (V2.change_password isWin dlg d st cred writeOk).1 = .saved) := by
  match dlg with
  | none =>
    refine ⟨by simp [V2.change_password], by simp, by simp⟩
  | some (pw, rem) =>
    by_cases hpw : pw = ""
    · subst hpw
      refine ⟨by simp [V2.change_password], ?_, ?_⟩
      · intro rem2 h
        simp [V2.change_password]
      · intro pw2 rem2 h hne
        rw [Option.some_inj] at h
        exact absurd (congrArg Prod.fst h).symm hne
    · refine ⟨?_, ?_, ?_⟩
      · simp only [V2.change_password, hpw, if_false]
        constructor
        · intro h
          exact CPOutcome.noConfusion h
        · rintro ⟨rem2, h⟩
          rw [Option.some_inj] at h
          exact absurd (congrArg Prod.fst h) hpw
      · intro rem2 h
        rw [Option.some_inj] at h
        exact absurd (congrArg Prod.fst h) hpw
      · intro pw2 rem2 h hne
        rw [Option.some_inj] at h
        have hpw2 : pw = pw2 := congrArg Prod.fst h
        subst hpw2
        simp [V2.change_password, hpw]

/-- Witness for `empty_secret_only_sync_failure` at concrete inputs. -/
theorem empty_secret_only_sync_failure_witness :
    V2.change_password true (some ("", true)) dpapiFailing ⟨"default", none⟩ .absent true
      = (.rejectedEmpty, ⟨"default", none⟩, .absent)
    ∧ (V2.change_password true (some ("npw", true)) dpapiFailing ⟨"default", none⟩
        .absent true).1 = .saved :=
  ⟨(empty_secret_only_sync_failure true (some ("", true)) dpapiFailing
      ⟨"default", none⟩ .absent true).2.1 true rfl,
   (empty_secret_only_sync_failure true (some ("npw", true)) dpapiFailing
      ⟨"default", none⟩ .absent true).2.2 "npw" true rfl (by decide)⟩

/-- C8 counterexample: for the empty secret, `set("", remember=true)`
does replace the cache, but a subsequent `get()` does not return it
(the Python truthiness check `if self._in_memory:` skips an empty
cached string), so the claim as stated over every secret fails at
`s = ""`. -/
theorem set_empty_secret_not_returned :
    ¬ ((V2.PasswordStore.get (dpapiPassthrough codec0)
          (V2.PasswordStore.set (dpapiPassthrough codec0) ⟨"default", none⟩
            .absent "" true true).1
          (V2.PasswordStore.set (dpapiPassthrough codec0) ⟨"default", none⟩
            .absent "" true true).2).1 = some "") := by
  decide

/-- C8 amended (restricted to non-empty secrets): `set(s, true)` first
replaces the in-memory cache with `s` unconditionally; an encrypt
failure or a disk-write failure is swallowed (the function is total and
the record is left unchanged); and `get()` afterwards returns `s`
whatever the on-disk state is. -/
theorem set_remember_swallows_failures (d : Dpapi) (st : V2.PasswordStore)
    (cred : CredRecord) (pw : String) (writeOk : Bool) (hpw : pw ≠ "") :
    (V2.PasswordStore.set d st cred pw true writeOk).1 = ⟨st.label, some pw⟩
    ∧ (d.encrypt pw = none →
        (V2.PasswordStore.set d st cred pw true writeOk).2 = cred)
    ∧ (writeOk = false →
        (V2.PasswordStore.set d st cred pw true writeOk).2 = cred)
    ∧ (∀ cred2, (V2.PasswordStore.get d
        (V2.PasswordStore.set d st cred pw true writeOk).1 cred2).1 = some pw) := by
  have hmem : (V2.PasswordStore.set d st cred pw true writeOk).1 = ⟨st.label, some pw⟩ := by
    simp only [V2.PasswordStore.set]
    cases h : d.encrypt pw <;> cases writeOk <;> simp
  have hemp : pw.isEmpty = false := isEmpty_eq_false_of_ne pw hpw
  refine ⟨hmem, fun h => ?_, fun h => ?_, fun cred2 => ?_⟩
  · simp [V2.PasswordStore.set, h]
  · cases henc : d.encrypt pw <;> simp [V2.PasswordStore.set, henc, h]
  · rw [hmem]
    simp [V2.PasswordStore.get, truthy, hemp]

/-- Witness for `set_remember_swallows_failures` with a failing encrypt
backend. -/
theorem set_remember_swallows_failures_witness :
    (V2.PasswordStore.set dpapiFailing ⟨"default", none⟩ .absent "npw" true true).1
      = ⟨"default", some "npw"⟩
    ∧ (V2.PasswordStore.set dpapiFailing ⟨"default", none⟩ .absent "npw" true true).2
      = .absent
    ∧ (V2.PasswordStore.get dpapiFailing
        (V2.PasswordStore.set dpapiFailing ⟨"default", none⟩ .absent "npw" true true).1
        .absent).1 = some "npw" :=
  ⟨(set_remember_swallows_failures dpapiFailing ⟨"default", none⟩ .absent "npw" true
      (by decide)).1,
   (set_remember_swallows_failures dpapiFailing ⟨"default", none⟩ .absent "npw" true
      (by decide)).2.1 rfl,
   (set_remember_swallows_failures dpapiFailing ⟨"default", none⟩ .absent "npw" true
      (by decide)).2.2.2 .absent⟩

/-- C4: `get()` is a total function (never raises: every exception path
of the source is caught and folded into these branches).  It returns a
non-empty cached secret untouched; with an empty cache it returns empty
and leaves the store unchanged for an absent record, a corrupted record,
an empty ciphertext field, a failed decrypt (wrong context / tampered
ciphertext) and a decrypt yielding the empty string; and on a decrypt
yielding a non-empty secret it caches and returns that secret. -/
theorem get_total_and_safe (d : Dpapi) (st : V2.PasswordStore) (cred : CredRecord) :
    (∀ s, st.in_memory = some s → s ≠ "" →
      V2.PasswordStore.get d st cred = (some s, st))
    ∧ (truthy st.in_memory = false →
        ((cred = .absent → V2.PasswordStore.get d st cred = (none, st))
        ∧ (cred = .corrupt → V2.PasswordStore.get d st cred = (none, st))
        ∧ (∀ l, cred = .record l "" → V2.PasswordStore.get d st cred = (none, st))
        ∧ (∀ l enc, cred = .record l enc → enc ≠ "" → d.decrypt enc = none →
            V2.PasswordStore.get d st cred = (none, st))
        ∧ (∀ l enc, cred = .record l enc → enc ≠ "" → d.decrypt enc = some "" →
            V2.PasswordStore.get d st cred = (none, st))
        ∧ (∀ l enc p, cred = .record l enc → enc ≠ "" → d.decrypt enc = some p →
            p ≠ "" →
            V2.PasswordStore.get d st cred = (some p, ⟨st.label, some p⟩)))) := by
  constructor
  · intro s hmem hs
    have hemp : s.isEmpty = false := isEmpty_eq_false_of_ne s hs
    simp [V2.PasswordStore.get, truthy, hmem, hemp]
  · intro htr
    refine ⟨fun h => ?_, fun h => ?_, fun l h => ?_, fun l enc h henc hdec => ?_,
      fun l enc h henc hdec => ?_, fun l enc p h henc hdec hp => ?_⟩
    · subst h; simp [V2.PasswordStore.get, htr]
    · subst h; simp [V2.PasswordStore.get, htr]
    · subst h; simp [V2.PasswordStore.get, htr]
    · subst h; simp [V2.PasswordStore.get, htr, henc, hdec]
    · subst h; simp [V2.PasswordStore.get, htr, henc, hdec]
    · subst h; simp [V2.PasswordStore.get, htr, henc, hdec, hp]

/-- Witness for `get_total_and_safe` across the record states. -/
theorem get_total_and_safe_witness :
    V2.PasswordStore.get dpapiFailing ⟨"default", some "mem"⟩ .corrupt
      = (some "mem", ⟨"default", some "mem"⟩)
    ∧ V2.PasswordStore.get dpapiFailing ⟨"default", none⟩ .absent
      = (none, ⟨"default", none⟩)
    ∧ V2.PasswordStore.get dpapiFailing ⟨"default", none⟩ (.record "default" "junk")
      = (none, ⟨"default", none⟩)
    ∧ V2.PasswordStore.get (dpapiPassthrough codec0) ⟨"default", none⟩
        (.record "default" "old")
      = (some "old", ⟨"default", some "old"⟩) :=
  ⟨(get_total_and_safe dpapiFailing ⟨"default", some "mem"⟩ .corrupt).1 "mem" rfl
      (by decide),
   ((get_total_and_safe dpapiFailing ⟨"default", none⟩ .absent).2 rfl).1 rfl,
   ((get_total_and_safe dpapiFailing ⟨"default", none⟩
      (.record "default" "junk")).2 rfl).2.2.2.1 "default" "junk" rfl (by decide) rfl,
   ((get_total_and_safe (dpapiPassthrough codec0) ⟨"default", none⟩
      (.record "default" "old")).2 rfl).2.2.2.2.2 "default" "old" "old" rfl
      (by decide) (by decide) (by decide)⟩

/-- C3 counterexample (the cited `app_V2.py` code): `change_password`
accepting a non-empty password with remember off, while an encrypted
record for a previous secret sits on disk, leaves that record in place —
a fresh store's `get()` still returns the previously remembered secret
instead of empty.  Neither `MainWindow.change_password` nor
`PasswordStore.set` of `app_V2.py` ever deletes the record on
`remember=false`. -/
theorem forget_keeps_record_v2 :
    ((V2.change_password true (some ("newpw", false)) (dpapiPassthrough codec0)
        ⟨"default", none⟩ (.record "default" "old") true).2.2
      = .record "default" "old")
    ∧ (V2.PasswordStore.get (dpapiPassthrough codec0) ⟨"default", none⟩
        (.record "default" "old")).1 = some "old" := by
  constructor
  · rfl
  · decide

/-- C3 amended (the behaviour holds only in the `app.py` variant): there,
`change_password` accepting a non-empty password with remember off while
keyring is available deletes the vault entry before `set`, so a fresh
store instance's `get()` returns empty; the `app_V2.py` variant keeps
the persisted record instead. -/
theorem forget_deletes_record_v1 (st : V1.PasswordStore) (vault : Option String)
    (pw : String) (setOk : Bool) (hpw : pw ≠ "") :
    ((V1.change_password true (some (pw, false)) st vault true setOk).1 = .saved)
    ∧ ((V1.change_password true (some (pw, false)) st vault true setOk).2.2 = none)
    ∧ ((V1.PasswordStore.get true
        (V1.change_password true (some (pw, false)) st vault true setOk).2.2
        ⟨st.service, st.account, none⟩).1 = none) := by
  refine ⟨?_, ?_, ?_⟩ <;>
    simp [V1.change_password, V1.PasswordStore.clear_device_store,
      V1.PasswordStore.set, V1.PasswordStore.get, truthy, hpw]

/-- Witness for `forget_deletes_record_v1` at concrete inputs. -/
theorem forget_deletes_record_v1_witness :
    ((V1.change_password true (some ("newpw", false)) ⟨SERVICE_NAME, USERNAME_LABEL, none⟩
        (some "old") true true).2.2 = none)
    ∧ ((V1.PasswordStore.get true
        (V1.change_password true (some ("newpw", false)) ⟨SERVICE_NAME, USERNAME_LABEL, none⟩
          (some "old") true true).2.2
        ⟨SERVICE_NAME, USERNAME_LABEL, none⟩).1 = none) :=
  ⟨(forget_deletes_record_v1 ⟨SERVICE_NAME, USERNAME_LABEL, none⟩ (some "old") "newpw"
      true (by decide)).2.1,
   (forget_deletes_record_v1 ⟨SERVICE_NAME, USERNAME_LABEL, none⟩ (some "old") "newpw"
      true (by decide)).2.2⟩

/-- C2: for every non-empty secret and each backend variant, the
round-trip `set(s, remember=true)` followed by a fresh instance's
`get()` returns `s`.  The hypotheses state the contracts of the
external primitives in the same encryption context: the DPAPI pair
round-trips `s` through a non-empty encoded blob, and the base64/UTF-8
pair of the passthrough backend round-trips `s` through a non-empty
encoding. -/
theorem roundtrip_all_backends (v : BackendVariant) (os : OsCrypto) (c : TextCodec)
    (s e : String)
    (hs : s ≠ "")
    (hwenc : dpapi_encrypt_win os c s = some e)
    (hwne : e ≠ "")
    (hwdec : dpapi_decrypt_win os c e = some s)
    (hpne : dpapi_encrypt_fallback c s ≠ "")
    (hpdec : dpapi_decrypt_fallback c (dpapi_encrypt_fallback c s) = some s) :
    roundtrip v os c s = some s := by
  have hemp : s.isEmpty = false := isEmpty_eq_false_of_ne s hs
  match v with
  | .vault =>
    simp [roundtrip, V1.PasswordStore.set, V1.PasswordStore.get, truthy, hemp, hs]
  | .userScoped =>
    simp [roundtrip, V2.PasswordStore.set, V2.PasswordStore.get, truthy,
      dpapiWindows, hwenc, hwne, hwdec, hemp, hs]
  | .passthrough =>
    simp [roundtrip, V2.PasswordStore.set, V2.PasswordStore.get, truthy,
      dpapiPassthrough, hpne, hpdec, hemp, hs]

/-- Witness for `roundtrip_all_backends`: all three variants at a
concrete secret, with the identity OS-crypto and character codec. -/
theorem roundtrip_all_backends_witness :
    roundtrip .vault os0 codec0 "pw1" = some "pw1"
    ∧ roundtrip .userScoped os0 codec0 "pw1" = some "pw1"
    ∧ roundtrip .passthrough os0 codec0 "pw1" = some "pw1" :=
  ⟨roundtrip_all_backends .vault os0 codec0 "pw1" "pw1" (by decide) (by decide)
      (by decide) (by decide) (by decide) (by decide),
   roundtrip_all_backends .userScoped os0 codec0 "pw1" "pw1" (by decide) (by decide)
      (by decide) (by decide) (by decide) (by decide),
   roundtrip_all_backends .passthrough os0 codec0 "pw1" "pw1" (by decide) (by decide)
      (by decide) (by decide) (by decide) (by decide)⟩

/-- C10 counterexample: `dpapi_encrypt` passes the UI-forbidden flag to
`CryptProtectData` but `dpapi_decrypt` passes `dwFlags = 0` to
`CryptUnprotectData`, so it is not the case that both primitives are
invoked with the prompt-suppressing flag.  Against an OS model that
blocks (fails) whenever the flag bit is missing, encryption of a
concrete secret succeeds while decryption of the very blob it points at
reaches the OS without the flag and blocks. -/
theorem decrypt_call_omits_ui_forbidden :
    ¬ (dpapiEncryptFlags = CRYPTPROTECT_UI_FORBIDDEN
        ∧ dpapiDecryptFlags = CRYPTPROTECT_UI_FORBIDDEN)
    ∧ dpapi_encrypt_win osStrict codec0 "pw1" = some "pw1"
    ∧ dpapi_decrypt_win osStrict codec0 "pw1" = none := by
  refine ⟨?_, by decide, by decide⟩
  intro h
  exact absurd h.2 (by decide)

/-- C10 amended: only the encrypt primitive is invoked with
`CRYPTPROTECT_UI_FORBIDDEN`; the decrypt primitive is invoked with
`dwFlags = 0`.  The last two conjuncts exhibit the exact OS calls the
two helpers make. -/
theorem encrypt_flag_ui_forbidden_only (os : OsCrypto) (c : TextCodec) (s b : String) :
    dpapiEncryptFlags = CRYPTPROTECT_UI_FORBIDDEN
    ∧ dpapiDecryptFlags = 0
    ∧ dpapi_encrypt_win os c s =
        (os.protect CRYPTPROTECT_UI_FORBIDDEN (c.utf8_encode s)).map c.b64encode
    ∧ dpapi_decrypt_win os c b =
        (c.b64decode b).bind (fun enc => (os.unprotect 0 enc).bind c.utf8_decode) := by
  refine ⟨rfl, rfl, rfl, ?_⟩
  cases hb : c.b64decode b with
  | none => simp [dpapi_decrypt_win, dpapiDecryptFlags, hb]
  | some enc =>
    cases hu : os.unprotect 0 enc with
    | none => simp [dpapi_decrypt_win, dpapiDecryptFlags, hb, hu]
    | some dec => simp [dpapi_decrypt_win, dpapiDecryptFlags, hb, hu]

end OneTimePw
